import Mathlib

/-!
# golang-todolist: the todo HTTP handlers over a MongoDB collection

A shallow embedding of `main.go`: the four handlers `fetchTodos`, `createTodo`,
`deleteTodo` and `updateTodo`, together with the parts of the libraries they call
(`bson.ObjectId`, `encoding/hex`, `strings.TrimSpace`, the `mgo` collection calls
`Find.All`, `Insert`, `Update`, `RemoveId`, and `renderer.JSON`).

The database is explicit state: a handler takes the collection before the request and
returns the response, the collection afterwards and the storage calls it issued.
Everything the handler reads from its environment (the clock, the object-id generator
state, a connectivity failure of the storage call) is an explicit input.
-/

namespace TodoList

/-! ## Go values -/

/-- A Go `byte`. -/
abbrev Byte := Fin 256

/-- Conversion `byte(n)`: the low eight bits of an integer. -/
def byte (n : Nat) : Byte := Fin.ofNat n

/-- A `time.Time` instant, as nanoseconds since the Unix epoch. -/
abbrev Time := Int

/-- The zero `time.Time` (January 1, year 1, 00:00:00 UTC), which is what a Go struct
field of type `time.Time` holds when nothing was decoded into it. -/
def zeroTime : Time := -62135596800 * 1000000000

/-- The type `bson.ObjectId`: a Go string holding the raw bytes of the identifier. -/
abbrev ObjectId := List Byte

/-! ## encoding/hex -/

/-- The table `hextable` of `encoding/hex`. -/
def hextable : List Char :=
  ['0', '1', '2', '3', '4', '5', '6', '7', '8', '9', 'a', 'b', 'c', 'd', 'e', 'f']

/-- Function `hex.Encode`: two lower-case digits per byte, `hextable[v>>4]` then
`hextable[v&0x0f]`. -/
def hexEncode : List Byte → List Char
  | [] => []
  | b :: bs => hextable.getD (b.val / 16) '0' :: hextable.getD (b.val % 16) '0' :: hexEncode bs

/-- Function `fromHexChar` of `encoding/hex`: the value of one hexadecimal digit, in
either case, or `none` for any other character. -/
def fromHexChar (c : Char) : Option Nat :=
  let n := c.toNat
  if 48 ≤ n ∧ n ≤ 57 then some (n - 48)
  else if 97 ≤ n ∧ n ≤ 102 then some (n - 97 + 10)
  else if 65 ≤ n ∧ n ≤ 70 then some (n - 65 + 10)
  else none

/-- Function `hex.DecodeString`: pairs of digits to bytes; `none` stands for the error
return (`InvalidByteError` or `ErrLength`). A character outside ASCII is made of bytes
that are not digits, so it is an error here as it is there. -/
def hexDecode : List Char → Option (List Byte)
  | [] => some []
  | [_] => none
  | p :: q :: rest =>
    match fromHexChar p, fromHexChar q, hexDecode rest with
    | some a, some b, some bs => some (byte (a * 16 + b) :: bs)
    | _, _, _ => none

/-! ## bson.ObjectId -/

/-- Method `ObjectId.Hex`: the hex text form of the identifier. -/
def ObjectId.Hex (id : ObjectId) : String := ⟨hexEncode id⟩

/-- Function `bson.IsObjectIdHex`: `len(s) == 24` (a count of bytes) and `s` decodes as
hexadecimal. -/
def IsObjectIdHex (s : String) : Bool :=
  s.utf8ByteSize == 24 && (hexDecode s.data).isSome

/-- Function `bson.ObjectIdHex`: the identifier a hex text stands for. It panics when
the text does not decode to twelve bytes; `none` is that panic. -/
def ObjectIdHex (s : String) : Option ObjectId :=
  match hexDecode s.data with
  | some d => if d.length = 12 then some d else none
  | none => none

/-- What `bson.NewObjectId` reads: the clock, the machine id (three bytes of the md5 of
the host name), the process id and the value of the process-wide counter after its
atomic increment. -/
structure IdSource where
  now : Time
  machineId0 : Byte
  machineId1 : Byte
  machineId2 : Byte
  processId : Nat
  objectIdCounter : Nat
  deriving DecidableEq, Repr

/-- Function `bson.NewObjectId`: four bytes of Unix seconds (big endian, as `uint32`),
three bytes of machine id, two bytes of process id, three bytes of counter. -/
def NewObjectId (g : IdSource) : ObjectId :=
  let sec : Nat := ((g.now / 1000000000) % 4294967296).toNat
  [ byte (sec / 16777216), byte (sec / 65536), byte (sec / 256), byte sec,
    g.machineId0, g.machineId1, g.machineId2,
    byte (g.processId / 256), byte g.processId,
    byte (g.objectIdCounter / 65536), byte (g.objectIdCounter / 256), byte g.objectIdCounter ]

/-! ## strings.TrimSpace -/

/-- Function `unicode.IsSpace`: the Latin-1 spaces tab, newline, vertical tab, form feed,
carriage return, space, U+0085 and U+00A0, and the other code points with the
White_Space property. -/
def isSpace (c : Char) : Bool :=
  let n := c.toNat
  n == 9 || n == 10 || n == 11 || n == 12 || n == 13 || n == 32 || n == 133 || n == 160
    || n == 5760 || (8192 ≤ n && n ≤ 8202) || n == 8232 || n == 8233 || n == 8239
    || n == 8287 || n == 12288

/-- Function `strings.TrimSpace`: the string without its leading and trailing white
space. -/
def TrimSpace (s : String) : String :=
  ⟨((s.data.dropWhile isSpace).reverse.dropWhile isSpace).reverse⟩

/-! ## The two item types of main.go -/

/-- The struct `todoModel`: the storage representation of an item. -/
structure todoModel where
  ID : ObjectId
  Title : String
  Completed : Bool
  CreatedAt : Time
  deriving DecidableEq, Repr

/-- The struct `todo`: the wire representation of an item. -/
structure todo where
  ID : String
  Title : String
  Completed : Bool
  CreatedAt : Time
  deriving DecidableEq, Repr

/-! ## The collection -/

/-- The fields of a stored document other than `_id`, each present or absent. A BSON
datetime is a count of whole milliseconds since the Unix epoch. -/
structure Fields where
  title : Option String
  completed : Option Bool
  createdAt : Option Int
  deriving DecidableEq, Repr

/-- A document of the collection `todo`: its `_id` and its other fields. -/
structure Doc where
  _id : ObjectId
  fields : Fields
  deriving DecidableEq, Repr

/-- The state of the collection `db.C(collectionName)`, in natural order. -/
abbrev Collection := List Doc

/-- What the database guarantees of a collection: every `_id` is a twelve-byte object
id, and no two documents share one. -/
def Collection.WF (c : Collection) : Prop :=
  (∀ d ∈ c, d._id.length = 12) ∧ (c.map Doc._id).Nodup

/-- The collection holds a document with this identifier. -/
def Collection.holds (c : Collection) (I : ObjectId) : Prop :=
  ∃ d ∈ c, d._id = I

/-- The BSON encoding of a `time.Time`, as `bson.Marshal` writes it: a datetime is a
64-bit count of milliseconds since the Unix epoch, `Unix()*1000 + Nanosecond()/1e6`,
so the instant is cut down to whole milliseconds. -/
def timeToBSON (t : Time) : Int := t / 1000000

/-- The `time.Time` decoded from a BSON datetime. -/
def timeOfBSON (ms : Int) : Time := ms * 1000000

/-- The document `bson.Marshal` makes of a `todoModel`, by its struct tags `_id`,
`title`, `completed` and `createdAt`. The tag `omitempty` on `_id` drops an empty
identifier; `createTodo` always passes the twelve bytes of `NewObjectId`, so the
identifier is written as it is. -/
def marshal (tm : todoModel) : Doc :=
  { _id := tm.ID,
    fields := { title := some tm.Title, completed := some tm.Completed,
                createdAt := some (timeToBSON tm.CreatedAt) } }

/-- The `todoModel` that `bson.Unmarshal` makes of a document: a field that is absent
leaves the zero value of its type. -/
def unmarshal (d : Doc) : todoModel :=
  { ID := d._id,
    Title := d.fields.title.getD "",
    Completed := d.fields.completed.getD false,
    CreatedAt := (d.fields.createdAt.map timeOfBSON).getD zeroTime }

/-- The errors a collection call returns: `mgo.ErrNotFound`, the duplicate key error
of an insert, and a connectivity or query failure with its text. -/
inductive DbError where
  | notFound
  | duplicateKey
  | failure (msg : String)
  deriving DecidableEq, Repr

/-- A connectivity failure of one storage call: the error text, and whether the server
had carried the write out before the connection failed. -/
structure Fault where
  err : String
  applied : Bool
  deriving DecidableEq, Repr

/-- The storage calls a handler can issue. -/
inductive DbCall where
  | findAll
  | insert (d : Doc)
  | update (id : ObjectId) (upd : Fields)
  | removeId (id : ObjectId)
  deriving DecidableEq, Repr

/-- What the server does with an insert: it refuses a document whose `_id` is already
in the collection, and otherwise appends the document. -/
def serverInsert (c : Collection) (d : Doc) : Except DbError Collection :=
  if c.any (fun x => x._id == d._id) then .error .duplicateKey else .ok (c ++ [d])

/-- What `Collection.Update` of `mgo` gets from the server for a selector on `_id` and
an update document that holds plain fields and no update operator such as `$set`: the
first document matching the selector is replaced by the update document, keeping its
`_id`. When no document matches, `Update` returns `mgo.ErrNotFound` (the session made by
`mgo.Dial` is in safe mode, in which `Update` is documented to return `ErrNotFound` if
a document is not found). -/
def serverUpdate : Collection → ObjectId → Fields → Except DbError Collection
  | [], _, _ => .error .notFound
  | d :: ds, id, upd =>
    if d._id = id then .ok ({ _id := d._id, fields := upd } :: ds)
    else match serverUpdate ds id upd with
      | .ok ds2 => .ok (d :: ds2)
      | .error e => .error e

/-- What `Collection.RemoveId` of `mgo` gets from the server: the first document with
that `_id` is removed. When no document matches, `RemoveId` returns `mgo.ErrNotFound`
(the session made by `mgo.Dial` is in safe mode, in which `Remove` is documented to
return `ErrNotFound` if a document is not found). -/
def serverRemove : Collection → ObjectId → Except DbError Collection
  | [], _ => .error .notFound
  | d :: ds, id =>
    if d._id = id then .ok ds
    else match serverRemove ds id with
      | .ok ds2 => .ok (d :: ds2)
      | .error e => .error e

/-- One write call as the client sees it: the error it returns (none for `nil`) and
the collection afterwards. Without a connectivity failure this is what the server did;
with one, the call returns the failure, and the write took place or not as the failure
says. -/
def writeCall (fault : Option Fault) (c : Collection) (r : Except DbError Collection) :
    Option DbError × Collection :=
  match fault, r with
  | none, .ok c2 => (none, c2)
  | none, .error e => (some e, c)
  | some f, .ok c2 => (some (.failure f.err), if f.applied then c2 else c)
  | some f, .error _ => (some (.failure f.err), c)

/-- Method `Collection.Insert` of `mgo` on one `todoModel`. -/
def Collection.Insert (fault : Option Fault) (c : Collection) (tm : todoModel) :
    Option DbError × Collection :=
  writeCall fault c (serverInsert c (marshal tm))

/-- Method `Collection.Update` of `mgo` with the selector `bson.M` of `_id` and a plain
update document. -/
def Collection.Update (fault : Option Fault) (c : Collection) (id : ObjectId) (upd : Fields) :
    Option DbError × Collection :=
  writeCall fault c (serverUpdate c id upd)

/-- Method `Collection.RemoveId` of `mgo`. -/
def Collection.RemoveId (fault : Option Fault) (c : Collection) (id : ObjectId) :
    Option DbError × Collection :=
  writeCall fault c (serverRemove c id)

/-- The call `Find(bson.M).All(&todos)` with the empty query: every document,
unmarshalled, or the failure of the query. -/
def Collection.FindAll (fault : Option String) (c : Collection) : Except DbError (List todoModel) :=
  match fault with
  | some e => .error (.failure e)
  | none => .ok (c.map unmarshal)

/-! ## Responses -/

/-- A value of a `renderer.M` map. -/
inductive JVal where
  | str (s : String)
  | err (e : DbError)
  | todos (l : List todo)
  deriving DecidableEq, Repr

/-- What a handler hands to `rnd.JSON` as the body: a `renderer.M` map, or (for a
request body that does not parse) the decoder error itself. -/
inductive Body where
  | M (entries : List (String × JVal))
  | decodeError (e : String)
  deriving DecidableEq, Repr

/-- What a handler does with its `http.ResponseWriter`: one call `rnd.JSON(w, status,
body)`, with the status and body as the handler passes them; or no call at all; or a
panic, for which no response is written. -/
inductive Response where
  | json (status : Nat) (body : Body)
  | empty
  | aborted
  deriving DecidableEq, Repr

/-- The test of `WriteHeader` in `net/http` for an informational status: a code from
100 to 199 other than 101 (`StatusSwitchingProtocols`). -/
def isInformational (code : Nat) : Bool :=
  100 ≤ code && code ≤ 199 && code != 101

/-- The interim status the client is sent before the final one, if any: `WriteHeader`
with an informational code sends that code as an interim response and leaves the
header of the final response unwritten. -/
def Response.interim : Response → Option Nat
  | .json s _ => if isInformational s then some s else none
  | .empty => none
  | .aborted => none

/-- The final status code of the response, when there is one. `rnd.JSON` calls
`w.WriteHeader(status)` and then `w.Write` with the encoded body: a status that is not
informational is the final status; after an informational one the header is still
unwritten, so `Write` sends the body under `net/http`'s default status 200. A handler
that writes nothing gets that default 200 too. -/
def Response.status : Response → Option Nat
  | .json s _ => if isInformational s then some 200 else some s
  | .empty => some 200
  | .aborted => none

/-- The body the handler handed to `rnd.JSON`, when it wrote one. -/
def Response.body : Response → Option Body
  | .json _ b => some b
  | .empty => none
  | .aborted => none

/-- The entry of the JSON body under a key, when the body is a map that has it. -/
def Response.entry (r : Response) (key : String) : Option JVal :=
  match r with
  | .json _ (.M entries) => entries.lookup key
  | _ => none

/-- The constants of `net/http` the handlers use. -/
def StatusProcessing : Nat := 102
/-- Constant `http.StatusOK`. -/
def StatusOK : Nat := 200
/-- Constant `http.StatusCreated`. -/
def StatusCreated : Nat := 201
/-- Constant `http.StatusBadRequest`. -/
def StatusBadRequest : Nat := 400

/-- The result of running a handler: the response, the collection afterwards, and the
storage calls the handler issued, in order. -/
structure Outcome where
  resp : Response
  db : Collection
  calls : List DbCall
  deriving DecidableEq, Repr

/-! ## The handlers -/

/-- The wire item of a stored item, as the loop of `fetchTodos` builds it. -/
def toWire (t : todoModel) : todo :=
  { ID := t.ID.Hex, Title := t.Title, Completed := t.Completed, CreatedAt := t.CreatedAt }

/-- Handler `fetchTodos` (GET /todo/). `fault` is the failure of the find-all query, if
it fails. -/
def fetchTodos (fault : Option String) (c : Collection) : Outcome :=
  match c.FindAll fault with
  | .error err =>
    { resp := .json StatusProcessing
        (.M [("message", .str "Failed to fetch todo"), ("error", .err err)]),
      db := c, calls := [.findAll] }
  | .ok todos =>
    { resp := .json StatusOK (.M [("data", .todos (todos.map toWire))]),
      db := c, calls := [.findAll] }

/-- What `createTodo` reads from its environment: the state of the object-id
generator, the clock at `time.Now()`, and the failure of the insert, if it fails. -/
structure CreateEnv where
  ids : IdSource
  now : Time
  fault : Option Fault
  deriving DecidableEq, Repr

/-- Handler `createTodo` (POST /todo/). `body` is the result of decoding the request
body as a `todo`: the item, or the decoder error. -/
def createTodo (env : CreateEnv) (c : Collection) (body : Except String todo) : Outcome :=
  match body with
  | .error err => { resp := .json StatusProcessing (.decodeError err), db := c, calls := [] }
  | .ok t =>
    if t.Title = "" then
      { resp := .json StatusBadRequest (.M [("message", .str "the title is required")]),
        db := c, calls := [] }
    else
      let tm : todoModel :=
        { ID := NewObjectId env.ids, Title := t.Title, Completed := false, CreatedAt := env.now }
      match c.Insert env.fault tm with
      | (some err, c2) =>
        { resp := .json StatusProcessing
            (.M [("message", .str "Failed to save todo"), ("error", .err err)]),
          db := c2, calls := [.insert (marshal tm)] }
      | (none, c2) =>
        { resp := .json StatusCreated
            (.M [("message", .str "todo create successfully"), ("todo_id", .str tm.ID.Hex)]),
          db := c2, calls := [.insert (marshal tm)] }

/-- Handler `deleteTodo` (DELETE /todo/id). `idParam` is `chi.URLParam(r, "id")`. -/
def deleteTodo (fault : Option Fault) (c : Collection) (idParam : String) : Outcome :=
  let id := TrimSpace idParam
  if !IsObjectIdHex id then
    { resp := .json StatusBadRequest (.M [("message", .str "the id is invalid")]),
      db := c, calls := [] }
  else
    match ObjectIdHex id with
    | none => { resp := .aborted, db := c, calls := [] }
    | some oid =>
      match c.RemoveId fault oid with
      | (some err, c2) =>
        { resp := .json StatusProcessing
            (.M [("message", .str "Failed to delete todo"), ("error", .err err)]),
          db := c2, calls := [.removeId oid] }
      | (none, c2) =>
        { resp := .json StatusOK (.M [("message", .str "todo deleted successfully")]),
          db := c2, calls := [.removeId oid] }

/-- Handler `updateTodo` (PUT /todo/id). `idParam` is `chi.URLParam(r, "id")` and `body`
the result of decoding the request body as a `todo`. The update document is the plain
map of `title` and `completed`. -/
def updateTodo (fault : Option Fault) (c : Collection) (idParam : String)
    (body : Except String todo) : Outcome :=
  let id := TrimSpace idParam
  if !IsObjectIdHex id then
    { resp := .json StatusBadRequest (.M [("message", .str "The id is invalid")]),
      db := c, calls := [] }
  else
    match body with
    | .error err => { resp := .json StatusProcessing (.decodeError err), db := c, calls := [] }
    | .ok t =>
      if t.Title = "" then
        { resp := .json StatusBadRequest (.M [("message", .str "the title field id required")]),
          db := c, calls := [] }
      else
        match ObjectIdHex id with
        | none => { resp := .aborted, db := c, calls := [] }
        | some oid =>
          let upd : Fields :=
            { title := some t.Title, completed := some t.Completed, createdAt := none }
          match c.Update fault oid upd with
          | (some err, c2) =>
            { resp := .json StatusProcessing
                (.M [("message", .str "failed to update todo"), ("error", .err err)]),
              db := c2, calls := [.update oid upd] }
          | (none, c2) => { resp := .empty, db := c2, calls := [.update oid upd] }

/-- The list a `fetchTodos` that succeeds puts under `data`. -/
def listed (c : Collection) : List todo := (c.map unmarshal).map toWire

/-- The byte length of a string, as the sum over its characters. -/
def byteLen : List Char → Nat
  | [] => 0
  | ch :: cs => byteLen cs + ch.utf8Size

/-! ## Reachable collections -/

/-- The collections the service can be in: it starts from the empty collection, and
each request runs one of the four handlers, with any body, any path id and any
behaviour of the clock, the id generator and the storage connection. -/
inductive Reachable : Collection → Prop where
  | start : Reachable []
  | fetch (fault : Option String) (c : Collection) :
      Reachable c → Reachable (fetchTodos fault c).db
  | create (env : CreateEnv) (body : Except String todo) (c : Collection) :
      Reachable c → Reachable (createTodo env c body).db
  | update (fault : Option Fault) (idParam : String) (body : Except String todo)
      (c : Collection) : Reachable c → Reachable (updateTodo fault c idParam body).db
  | delete (fault : Option Fault) (idParam : String) (c : Collection) :
      Reachable c → Reachable (deleteTodo fault c idParam).db

/-- Every stored document has a title, and it is not the empty string. -/
def TitlesNonEmpty (c : Collection) : Prop :=
  ∀ d ∈ c, ∃ t, d.fields.title = some t ∧ t ≠ ""

/-! ## Example data -/

/-- An object-id generator state: 14 November 2023 22:13:20 UTC, machine 01 02 03,
process 70000, counter 16777217. Its identifier reads `6553f1000102031170000001`. -/
def exampleIds : IdSource :=
  { now := 1700000000000000000, machineId0 := 1, machineId1 := 2, machineId2 := 3,
    processId := 70000, objectIdCounter := 16777217 }

/-- The identifier `6553f1000102031170000001`. -/
def exampleId : ObjectId := NewObjectId exampleIds

/-- An environment of `createTodo`: `time.Now()` reads 0.7 ms after the full second. -/
def exampleEnv : CreateEnv :=
  { ids := exampleIds, now := 1700000000000700000, fault := none }

/-- The instant a create request arrives: 0.5 ms after the full second, 0.2 ms before
the handler reads the clock. -/
def exampleCall : Time := 1700000000000500000

/-- A stored item with the identifier `exampleId`. -/
def exampleDoc : Doc :=
  { _id := exampleId,
    fields := { title := some "buy milk", completed := some false,
                createdAt := some 1700000000000 } }

/-- A stored item with another identifier, `6553f1000102031170000002`, whose document
has no `createdAt`. -/
def exampleOther : Doc :=
  { _id := NewObjectId { exampleIds with objectIdCounter := 16777218 },
    fields := { title := some "walk dog", completed := some true, createdAt := none } }

/-- A request body with a title. -/
def exampleBody : todo := { ID := "", Title := "x", Completed := true, CreatedAt := zeroTime }

/-! ## Hexadecimal text of identifiers -/

theorem fromHexChar_hextable : ∀ n, n < 16 → fromHexChar (hextable.getD n '0') = some n := by
  decide

theorem hextable_not_space : ∀ n, n < 16 → isSpace (hextable.getD n '0') = false := by
  decide

theorem hextable_utf8Size : ∀ n, n < 16 → (hextable.getD n '0').utf8Size = 1 := by
  decide

theorem byte_split (b : Byte) : byte (b.val / 16 * 16 + b.val % 16) = b := by
  apply Fin.ext
  have h := b.isLt
  simp only [byte, Fin.ofNat, Fin.val_mk]
  omega

theorem byte_div_lt (b : Byte) : b.val / 16 < 16 := by
  have h := b.isLt
  omega

theorem byte_mod_lt (b : Byte) : b.val % 16 < 16 := Nat.mod_lt _ (by decide)

/-- Decoding the hex text of a byte string gives the byte string back. -/
theorem hexDecode_hexEncode (bs : List Byte) : hexDecode (hexEncode bs) = some bs := by
  induction bs with
  | nil => rfl
  | cons b bs ih =>
    simp only [hexEncode, hexDecode, fromHexChar_hextable _ (byte_div_lt b),
      fromHexChar_hextable _ (byte_mod_lt b), ih, byte_split]

theorem hexEncode_length (bs : List Byte) : (hexEncode bs).length = 2 * bs.length := by
  induction bs with
  | nil => rfl
  | cons b bs ih => simp only [hexEncode, List.length_cons, ih]; omega

theorem hexEncode_not_space (bs : List Byte) : ∀ ch ∈ hexEncode bs, isSpace ch = false := by
  induction bs with
  | nil => intro ch h; cases h
  | cons b bs ih =>
    intro ch h
    simp only [hexEncode, List.mem_cons] at h
    rcases h with h | h | h
    · rw [h]; exact hextable_not_space _ (byte_div_lt b)
    · rw [h]; exact hextable_not_space _ (byte_mod_lt b)
    · exact ih ch h

theorem utf8ByteSize_eq_byteLen (l : List Char) : (String.mk l).utf8ByteSize = byteLen l := by
  show String.utf8ByteSize.go l = byteLen l
  induction l with
  | nil => rfl
  | cons ch cs ih => simp only [String.utf8ByteSize.go, byteLen, ih]

theorem byteLen_hexEncode (bs : List Byte) : byteLen (hexEncode bs) = 2 * bs.length := by
  induction bs with
  | nil => rfl
  | cons b bs ih =>
    simp only [hexEncode, byteLen, ih, hextable_utf8Size _ (byte_div_lt b),
      hextable_utf8Size _ (byte_mod_lt b), List.length_cons]
    omega

theorem fromHexChar_utf8Size (ch : Char) (a : Nat) (h : fromHexChar ch = some a) :
    ch.utf8Size = 1 := by
  have hn : ch.toNat ≤ 102 := by
    unfold fromHexChar at h
    simp only at h
    split at h
    · omega
    · split at h
      · omega
      · split at h
        · omega
        · cases h
  have hv : ch.val ≤ 127 := by
    rw [UInt32.le_def]
    show ch.val.val ≤ (127 : UInt32).val
    have : ch.val.val.val = ch.toNat := rfl
    apply Fin.le_def.mpr
    show ch.val.val.val ≤ 127
    omega
  unfold Char.utf8Size
  exact if_pos hv

/-- A text that decodes as hexadecimal has two one-byte characters per decoded byte. -/
theorem hexDecode_byteLen (l : List Char) : ∀ d, hexDecode l = some d → byteLen l = 2 * d.length := by
  induction l using hexDecode.induct with
  | case1 => intro d h; simp only [hexDecode, Option.some.injEq] at h; subst h; rfl
  | case2 ch => intro d h; simp [hexDecode] at h
  | case3 p q rest a b bs hbs hb ha ih =>
    intro d h
    simp only [hexDecode, ha, hb, hbs, Option.some.injEq] at h
    subst h
    simp only [byteLen, ih bs hbs, fromHexChar_utf8Size p a ha, fromHexChar_utf8Size q b hb,
      List.length_cons]
    omega
  | case4 p q rest hno ih =>
    intro d h
    simp only [hexDecode] at h
    cases h

theorem dropWhile_of_all_false (p : Char → Bool) (l : List Char) (h : ∀ ch ∈ l, p ch = false) :
    l.dropWhile p = l := by
  cases l with
  | nil => rfl
  | cons a as => simp [List.dropWhile, h a (List.mem_cons_self _ _)]

/-- The hex text of an identifier has no white space to trim. -/
theorem TrimSpace_Hex (I : ObjectId) : TrimSpace I.Hex = I.Hex := by
  unfold TrimSpace ObjectId.Hex
  simp only
  rw [dropWhile_of_all_false _ _ (hexEncode_not_space I),
    dropWhile_of_all_false _ _ (fun ch h => hexEncode_not_space I ch (List.mem_reverse.mp h)),
    List.reverse_reverse]

/-- The hex text of a twelve-byte identifier passes the syntax check. -/
theorem IsObjectIdHex_Hex (I : ObjectId) (h : I.length = 12) : IsObjectIdHex I.Hex = true := by
  unfold IsObjectIdHex ObjectId.Hex
  rw [utf8ByteSize_eq_byteLen, byteLen_hexEncode, hexDecode_hexEncode, h]
  rfl

/-- The hex text of a twelve-byte identifier reads back as the identifier. -/
theorem ObjectIdHex_Hex (I : ObjectId) (h : I.length = 12) : ObjectIdHex I.Hex = some I := by
  unfold ObjectIdHex ObjectId.Hex
  simp only [hexDecode_hexEncode, h, if_true]

/-- Two identifiers with the same hex text are the same. -/
theorem Hex_injective (I J : ObjectId) (h : I.Hex = J.Hex) : I = J := by
  have h1 : hexDecode (hexEncode I) = hexDecode (hexEncode J) := by
    have : hexEncode I = hexEncode J := by
      have := congrArg String.data h
      exact this
    rw [this]
  rw [hexDecode_hexEncode, hexDecode_hexEncode] at h1
  exact Option.some.inj h1

/-- A text that passes the syntax check stands for a twelve-byte identifier, so
`ObjectIdHex` does not panic on it. -/
theorem ObjectIdHex_of_IsObjectIdHex (s : String) (h : IsObjectIdHex s = true) :
    ∃ I, ObjectIdHex s = some I ∧ I.length = 12 := by
  unfold IsObjectIdHex at h
  simp only [Bool.and_eq_true, beq_iff_eq] at h
  obtain ⟨hlen, hdec⟩ := h
  obtain ⟨d, hd⟩ := Option.isSome_iff_exists.mp hdec
  have hb := hexDecode_byteLen s.data d hd
  have hs : s.utf8ByteSize = byteLen s.data := utf8ByteSize_eq_byteLen s.data
  have hl : d.length = 12 := by omega
  exact ⟨d, by unfold ObjectIdHex; simp only [hd, hl, if_true], hl⟩

theorem NewObjectId_length (g : IdSource) : (NewObjectId g).length = 12 := rfl

/-! ## The server operations on a well-formed collection -/

theorem serverRemove_absent (c : Collection) (I : ObjectId) (h : ¬ c.holds I) :
    serverRemove c I = .error .notFound := by
  induction c with
  | nil => rfl
  | cons d ds ih =>
    have hd : d._id ≠ I := fun e => h ⟨d, List.mem_cons_self _ _, e⟩
    have hds : ¬ Collection.holds ds I := fun ⟨x, hx, e⟩ => h ⟨x, List.mem_cons_of_mem _ hx, e⟩
    simp only [serverRemove, hd, if_false, ih hds]

theorem serverUpdate_absent (c : Collection) (I : ObjectId) (upd : Fields) (h : ¬ c.holds I) :
    serverUpdate c I upd = .error .notFound := by
  induction c with
  | nil => rfl
  | cons d ds ih =>
    have hd : d._id ≠ I := fun e => h ⟨d, List.mem_cons_self _ _, e⟩
    have hds : ¬ Collection.holds ds I := fun ⟨x, hx, e⟩ => h ⟨x, List.mem_cons_of_mem _ hx, e⟩
    simp only [serverUpdate, hd, if_false, ih hds]

theorem filter_absent (c : Collection) (I : ObjectId) (h : I ∉ c.map Doc._id) :
    c.filter (fun d => d._id != I) = c := by
  apply List.filter_eq_self.mpr
  intro d hd
  have : d._id ≠ I := fun e => h (e ▸ List.mem_map_of_mem Doc._id hd)
  simpa using this

theorem map_absent (c : Collection) (I : ObjectId) (upd : Fields) (h : I ∉ c.map Doc._id) :
    c.map (fun d => if d._id = I then { _id := d._id, fields := upd } else d) = c := by
  conv => rhs; rw [← List.map_id c]
  apply List.map_congr_left
  intro d hd
  have : d._id ≠ I := fun e => h (e ▸ List.mem_map_of_mem Doc._id hd)
  simp only [this, if_false, id]

/-- On a collection without duplicate identifiers, removing a stored identifier leaves
exactly the documents with another identifier. -/
theorem serverRemove_present (c : Collection) (I : ObjectId) (hn : (c.map Doc._id).Nodup)
    (h : c.holds I) : serverRemove c I = .ok (c.filter (fun d => d._id != I)) := by
  induction c with
  | nil => obtain ⟨d, hd, _⟩ := h; cases hd
  | cons d ds ih =>
    simp only [List.map_cons, List.nodup_cons] at hn
    by_cases hd : d._id = I
    · have hI : I ∉ ds.map Doc._id := hd ▸ hn.1
      simp only [serverRemove, hd, if_true, List.filter_cons, bne_self_eq_false,
        Bool.false_eq_true, if_false, filter_absent ds I hI]
    · have hds : Collection.holds ds I := by
        obtain ⟨x, hx, e⟩ := h
        rcases List.mem_cons.mp hx with hx | hx
        · exact absurd (hx ▸ e) hd
        · exact ⟨x, hx, e⟩
      have hb : (d._id != I) = true := by simpa using hd
      simp only [serverRemove, hd, if_false, ih hn.2 hds, List.filter_cons, hb, if_true]

/-- On a collection without duplicate identifiers, updating a stored identifier
replaces the fields of its document and leaves every other document as it was. -/
theorem serverUpdate_present (c : Collection) (I : ObjectId) (upd : Fields)
    (hn : (c.map Doc._id).Nodup) (h : c.holds I) :
    serverUpdate c I upd
      = .ok (c.map (fun d => if d._id = I then { _id := d._id, fields := upd } else d)) := by
  induction c with
  | nil => obtain ⟨d, hd, _⟩ := h; cases hd
  | cons d ds ih =>
    simp only [List.map_cons, List.nodup_cons] at hn
    by_cases hd : d._id = I
    · have hI : I ∉ ds.map Doc._id := hd ▸ hn.1
      simp only [serverUpdate, hd, if_true, List.map_cons, map_absent ds I upd hI]
    · have hds : Collection.holds ds I := by
        obtain ⟨x, hx, e⟩ := h
        rcases List.mem_cons.mp hx with hx | hx
        · exact absurd (hx ▸ e) hd
        · exact ⟨x, hx, e⟩
      simp only [serverUpdate, hd, if_false, ih hn.2 hds, List.map_cons]

theorem serverInsert_fresh (c : Collection) (d : Doc) (h : ¬ c.holds d._id) :
    serverInsert c d = .ok (c ++ [d]) := by
  have : c.any (fun x => x._id == d._id) = false := by
    rw [Bool.eq_false_iff]
    intro ha
    obtain ⟨x, hx, e⟩ := List.any_eq_true.mp ha
    exact h ⟨x, hx, by simpa using e⟩
  simp only [serverInsert, this, Bool.false_eq_true, if_false]

theorem serverInsert_dup (c : Collection) (d : Doc) (h : c.holds d._id) :
    serverInsert c d = .error .duplicateKey := by
  have : c.any (fun x => x._id == d._id) = true := by
    obtain ⟨x, hx, e⟩ := h
    exact List.any_eq_true.mpr ⟨x, hx, by simpa using e⟩
  simp only [serverInsert, this, if_true]

theorem holds_iff_mem (c : Collection) (I : ObjectId) : c.holds I ↔ I ∈ c.map Doc._id := by
  constructor
  · rintro ⟨d, hd, e⟩; exact e ▸ List.mem_map_of_mem Doc._id hd
  · intro h
    obtain ⟨d, hd, e⟩ := List.mem_map.mp h
    exact ⟨d, hd, e⟩

/-- Appending a document with a fresh twelve-byte identifier keeps the collection
well-formed. -/
theorem WF_append (c : Collection) (d : Doc) (hwf : c.WF) (hl : d._id.length = 12)
    (hf : ¬ c.holds d._id) : Collection.WF (c ++ [d]) := by
  refine ⟨?_, ?_⟩
  · intro x hx
    rcases List.mem_append.mp hx with hx | hx
    · exact hwf.1 x hx
    · rw [List.mem_singleton.mp hx]; exact hl
  · rw [List.map_append, List.nodup_append]
    refine ⟨hwf.2, List.nodup_singleton _, ?_⟩
    intro a ha hb
    simp only [List.map_cons, List.map_nil, List.mem_singleton] at hb
    exact hf ((holds_iff_mem c d._id).mpr (hb ▸ ha))

/-- Replacing the fields of the documents with one identifier keeps the collection
well-formed. -/
theorem WF_map (c : Collection) (I : ObjectId) (upd : Fields) (hwf : c.WF) :
    Collection.WF (c.map (fun d => if d._id = I then { _id := d._id, fields := upd } else d)) := by
  have hid : (c.map (fun d => if d._id = I then { _id := d._id, fields := upd } else d)).map Doc._id
      = c.map Doc._id := by
    rw [List.map_map]
    apply List.map_congr_left
    intro d _
    simp only [Function.comp]
    split <;> rfl
  refine ⟨?_, hid ▸ hwf.2⟩
  intro x hx
  obtain ⟨d, hd, e⟩ := List.mem_map.mp hx
  rw [← e]
  split
  · exact hwf.1 d hd
  · exact hwf.1 d hd

/-! ## What a listing shows -/

theorem listed_append (c : Collection) (d : Doc) :
    listed (c ++ [d]) = listed c ++ [toWire (unmarshal d)] := by
  simp only [listed, List.map_append, List.map_cons, List.map_nil]

/-- The listing after the documents with identifier `I` are gone: the former listing
without the entries whose id is the hex text of `I`. -/
theorem listed_filter (c : Collection) (I : ObjectId) :
    listed (c.filter (fun d => d._id != I)) = (listed c).filter (fun x => x.ID != I.Hex) := by
  induction c with
  | nil => rfl
  | cons d ds ih =>
    have hl : listed (d :: ds) = toWire (unmarshal d) :: listed ds := rfl
    by_cases hd : d._id = I
    · have h2 : ((toWire (unmarshal d)).ID != I.Hex) = false := by
        simp [toWire, unmarshal, hd]
      have h1 : (d._id != I) = false := by simp [hd]
      rw [hl, List.filter_cons, List.filter_cons, h1, h2]
      simpa using ih
    · have h2 : ((toWire (unmarshal d)).ID != I.Hex) = true := by
        have : d._id.Hex ≠ I.Hex := fun e => hd (Hex_injective _ _ e)
        simpa [toWire, unmarshal] using this
      have h1 : (d._id != I) = true := by simpa using hd
      rw [hl, List.filter_cons, List.filter_cons, h1, h2]
      simp only [if_true]
      show toWire (unmarshal d) :: listed (List.filter (fun d => d._id != I) ds) = _
      rw [ih]

/-- The listing after the fields of the document with identifier `I` are replaced by
a title and a completed flag: its entry shows them and the zero time, every other entry
is as it was. -/
theorem listed_map (c : Collection) (I : ObjectId) (title : String) (completed : Bool) :
    listed (c.map (fun d => if d._id = I then
        { _id := d._id,
          fields := { title := some title, completed := some completed, createdAt := none } }
        else d))
      = (listed c).map (fun x => if x.ID = I.Hex then
          { ID := I.Hex, Title := title, Completed := completed, CreatedAt := zeroTime } else x) := by
  induction c with
  | nil => rfl
  | cons d ds ih =>
    have hl : ∀ (e : Doc) (es : Collection), listed (e :: es) = toWire (unmarshal e) :: listed es :=
      fun _ _ => rfl
    rw [List.map_cons, hl, hl, List.map_cons, ih]
    congr 1
    by_cases hd : d._id = I
    · simp [toWire, unmarshal, hd]
    · have : d._id.Hex ≠ I.Hex := fun e => hd (Hex_injective _ _ e)
      simp [toWire, unmarshal, hd, this]

/-! ## The handlers, case by case -/

theorem deleteTodo_invalid (fault : Option Fault) (c : Collection) (idParam : String)
    (h : IsObjectIdHex (TrimSpace idParam) = false) :
    deleteTodo fault c idParam
      = { resp := .json 400 (.M [("message", .str "the id is invalid")]), db := c, calls := [] } := by
  simp [deleteTodo, h, StatusBadRequest]

theorem updateTodo_invalid (fault : Option Fault) (c : Collection) (idParam : String)
    (body : Except String todo) (h : IsObjectIdHex (TrimSpace idParam) = false) :
    updateTodo fault c idParam body
      = { resp := .json 400 (.M [("message", .str "The id is invalid")]), db := c, calls := [] } := by
  simp [updateTodo, h, StatusBadRequest]

theorem deleteTodo_absent_id (c : Collection) (idParam : String) (I : ObjectId)
    (hv : IsObjectIdHex (TrimSpace idParam) = true) (hI : ObjectIdHex (TrimSpace idParam) = some I)
    (h : ¬ c.holds I) :
    deleteTodo none c idParam
      = { resp := .json 102
            (.M [("message", .str "Failed to delete todo"), ("error", .err .notFound)]),
          db := c, calls := [.removeId I] } := by
  simp [deleteTodo, hv, hI, Collection.RemoveId, serverRemove_absent c I h, writeCall,
    StatusProcessing]

theorem deleteTodo_present_id (c : Collection) (idParam : String) (I : ObjectId)
    (hv : IsObjectIdHex (TrimSpace idParam) = true) (hI : ObjectIdHex (TrimSpace idParam) = some I)
    (hn : (c.map Doc._id).Nodup) (h : c.holds I) :
    deleteTodo none c idParam
      = { resp := .json 200 (.M [("message", .str "todo deleted successfully")]),
          db := c.filter (fun d => d._id != I), calls := [.removeId I] } := by
  simp [deleteTodo, hv, hI, Collection.RemoveId, serverRemove_present c I hn h, writeCall,
    StatusOK]

theorem updateTodo_absent_id (c : Collection) (idParam : String) (I : ObjectId) (t : todo)
    (hv : IsObjectIdHex (TrimSpace idParam) = true) (hI : ObjectIdHex (TrimSpace idParam) = some I)
    (ht : t.Title ≠ "") (h : ¬ c.holds I) :
    updateTodo none c idParam (.ok t)
      = { resp := .json 102
            (.M [("message", .str "failed to update todo"), ("error", .err .notFound)]),
          db := c,
          calls := [.update I
            { title := some t.Title, completed := some t.Completed, createdAt := none }] } := by
  simp [updateTodo, hv, hI, ht, Collection.Update, serverUpdate_absent c I _ h, writeCall,
    StatusProcessing]

theorem updateTodo_present_id (c : Collection) (idParam : String) (I : ObjectId) (t : todo)
    (hv : IsObjectIdHex (TrimSpace idParam) = true) (hI : ObjectIdHex (TrimSpace idParam) = some I)
    (ht : t.Title ≠ "") (hn : (c.map Doc._id).Nodup) (h : c.holds I) :
    updateTodo none c idParam (.ok t)
      = { resp := .empty,
          db := c.map (fun d => if d._id = I then
            { _id := d._id,
              fields := { title := some t.Title, completed := some t.Completed,
                          createdAt := none } }
            else d),
          calls := [.update I
            { title := some t.Title, completed := some t.Completed, createdAt := none }] } := by
  simp [updateTodo, hv, hI, ht, Collection.Update, serverUpdate_present c I _ hn h, writeCall]

theorem createTodo_inserted (env : CreateEnv) (c : Collection) (t : todo) (ht : t.Title ≠ "")
    (hf : env.fault = none) (hfresh : ¬ c.holds (NewObjectId env.ids)) :
    createTodo env c (.ok t)
      = { resp := .json 201
            (.M [("message", .str "todo create successfully"),
                 ("todo_id", .str (NewObjectId env.ids).Hex)]),
          db := c ++ [marshal { ID := NewObjectId env.ids, Title := t.Title, Completed := false,
                                CreatedAt := env.now }],
          calls := [.insert (marshal { ID := NewObjectId env.ids, Title := t.Title,
                                       Completed := false, CreatedAt := env.now })] } := by
  have hi : serverInsert c (marshal ⟨NewObjectId env.ids, t.Title, false, env.now⟩)
      = .ok (c ++ [marshal ⟨NewObjectId env.ids, t.Title, false, env.now⟩]) :=
    serverInsert_fresh c _ hfresh
  simp [createTodo, ht, Collection.Insert, hi, hf, writeCall, StatusCreated]

/-- An insert that returns no error met no connectivity failure and a fresh `_id`. -/
theorem Insert_ok (fault : Option Fault) (c : Collection) (tm : todoModel)
    (h : (c.Insert fault tm).1 = none) : fault = none ∧ ¬ c.holds tm.ID := by
  unfold Collection.Insert at h
  by_cases hh : c.holds tm.ID
  · rw [serverInsert_dup c (marshal tm) hh] at h
    cases fault <;> simp [writeCall] at h
  · rw [serverInsert_fresh c (marshal tm) hh] at h
    cases fault with
    | none => exact ⟨rfl, hh⟩
    | some f => simp [writeCall] at h

theorem fetchTodos_ok (c : Collection) :
    fetchTodos none c
      = { resp := .json 200 (.M [("data", .todos (listed c))]), db := c, calls := [.findAll] } :=
  rfl

theorem listed_ids (c : Collection) : ∀ x ∈ listed c, ∃ d ∈ c, x.ID = d._id.Hex := by
  intro x hx
  simp only [listed, List.map_map, List.mem_map] at hx
  obtain ⟨d, hd, e⟩ := hx
  exact ⟨d, hd, by rw [← e]; rfl⟩

theorem listed_absent (c : Collection) (I : ObjectId) (h : ¬ c.holds I) :
    ∀ x ∈ listed c, x.ID ≠ I.Hex := by
  intro x hx e
  obtain ⟨d, hd, hid⟩ := listed_ids c x hx
  exact h ⟨d, hd, Hex_injective _ _ (hid ▸ e)⟩

theorem not_holds_nil (I : ObjectId) : ¬ Collection.holds [] I := by
  rintro ⟨d, hd, _⟩
  cases hd

theorem not_holds_exampleOther : ¬ Collection.holds [exampleOther] exampleId := by
  rw [holds_iff_mem]
  decide

theorem holds_append_self (c : Collection) (d : Doc) : Collection.holds (c ++ [d]) d._id :=
  ⟨d, List.mem_append_right _ (List.mem_singleton_self d), rfl⟩

theorem holds_map (c : Collection) (I J : ObjectId) (upd : Fields) (h : c.holds J) :
    Collection.holds
      (c.map (fun d => if d._id = I then { _id := d._id, fields := upd } else d)) J := by
  obtain ⟨d, hd, e⟩ := h
  refine ⟨_, List.mem_map_of_mem _ hd, ?_⟩
  split <;> exact e

/-! ## Non-empty titles are kept -/

theorem TitlesNonEmpty_writeCall (fault : Option Fault) (c : Collection)
    (r : Except DbError Collection) (hc : TitlesNonEmpty c)
    (hr : ∀ c2, r = .ok c2 → TitlesNonEmpty c2) : TitlesNonEmpty (writeCall fault c r).2 := by
  cases fault with
  | none =>
    cases r with
    | ok c2 => exact hr c2 rfl
    | error e => exact hc
  | some f =>
    cases r with
    | ok c2 =>
      simp only [writeCall]
      split
      · exact hr c2 rfl
      · exact hc
    | error e => exact hc

theorem TitlesNonEmpty_serverInsert (c c2 : Collection) (tm : todoModel) (ht : tm.Title ≠ "")
    (hc : TitlesNonEmpty c) (h : serverInsert c (marshal tm) = .ok c2) : TitlesNonEmpty c2 := by
  unfold serverInsert at h
  split at h
  · cases h
  · cases h
    intro d hd
    rcases List.mem_append.mp hd with hd | hd
    · exact hc d hd
    · rw [List.mem_singleton.mp hd]
      exact ⟨tm.Title, rfl, ht⟩

theorem TitlesNonEmpty_serverUpdate (c : Collection) (I : ObjectId) (upd : Fields)
    (hu : ∃ t, upd.title = some t ∧ t ≠ "") :
    ∀ c2, TitlesNonEmpty c → serverUpdate c I upd = .ok c2 → TitlesNonEmpty c2 := by
  induction c with
  | nil => intro c2 _ h; cases h
  | cons d ds ih =>
    intro c2 hc h
    have hds : TitlesNonEmpty ds := fun x hx => hc x (List.mem_cons_of_mem _ hx)
    simp only [serverUpdate] at h
    split at h
    · cases h
      intro x hx
      rcases List.mem_cons.mp hx with hx | hx
      · rw [hx]; exact hu
      · exact hds x hx
    · split at h
      · rename_i ds2 hds2
        cases h
        intro x hx
        rcases List.mem_cons.mp hx with hx | hx
        · rw [hx]; exact hc d (List.mem_cons_self _ _)
        · exact ih ds2 hds hds2 x hx
      · cases h

theorem TitlesNonEmpty_serverRemove (c : Collection) (I : ObjectId) :
    ∀ c2, TitlesNonEmpty c → serverRemove c I = .ok c2 → TitlesNonEmpty c2 := by
  induction c with
  | nil => intro c2 _ h; cases h
  | cons d ds ih =>
    intro c2 hc h
    have hds : TitlesNonEmpty ds := fun x hx => hc x (List.mem_cons_of_mem _ hx)
    simp only [serverRemove] at h
    split at h
    · cases h
      exact hds
    · split at h
      · rename_i ds2 hds2
        cases h
        intro x hx
        rcases List.mem_cons.mp hx with hx | hx
        · rw [hx]; exact hc d (List.mem_cons_self _ _)
        · exact ih ds2 hds hds2 x hx
      · cases h

theorem TitlesNonEmpty_createTodo (env : CreateEnv) (c : Collection) (body : Except String todo)
    (hc : TitlesNonEmpty c) : TitlesNonEmpty (createTodo env c body).db := by
  unfold createTodo
  split
  · exact hc
  · rename_i t
    split
    · exact hc
    · rename_i ht
      have hw := TitlesNonEmpty_writeCall env.fault c
        (serverInsert c (marshal ⟨NewObjectId env.ids, t.Title, false, env.now⟩)) hc
        (fun c2 h => TitlesNonEmpty_serverInsert c c2 _ ht hc h)
      simp only
      split
      · rename_i err c2 heq
        have : (Collection.Insert env.fault c ⟨NewObjectId env.ids, t.Title, false, env.now⟩).2
            = c2 := by rw [heq]
        rw [← this]; exact hw
      · rename_i c2 heq
        have : (Collection.Insert env.fault c ⟨NewObjectId env.ids, t.Title, false, env.now⟩).2
            = c2 := by rw [heq]
        rw [← this]; exact hw

theorem TitlesNonEmpty_deleteTodo (fault : Option Fault) (c : Collection) (idParam : String)
    (hc : TitlesNonEmpty c) : TitlesNonEmpty (deleteTodo fault c idParam).db := by
  unfold deleteTodo
  simp only
  split
  · exact hc
  · split
    · exact hc
    · rename_i oid _
      have hw := TitlesNonEmpty_writeCall fault c (serverRemove c oid) hc
        (fun c2 h => TitlesNonEmpty_serverRemove c oid c2 hc h)
      split
      · rename_i err c2 heq
        have : (Collection.RemoveId fault c oid).2 = c2 := by rw [heq]
        rw [← this]; exact hw
      · rename_i c2 heq
        have : (Collection.RemoveId fault c oid).2 = c2 := by rw [heq]
        rw [← this]; exact hw

theorem TitlesNonEmpty_updateTodo (fault : Option Fault) (c : Collection) (idParam : String)
    (body : Except String todo) (hc : TitlesNonEmpty c) :
    TitlesNonEmpty (updateTodo fault c idParam body).db := by
  unfold updateTodo
  simp only
  split
  · exact hc
  · split
    · exact hc
    · rename_i t
      split
      · exact hc
      · rename_i ht
        split
        · exact hc
        · rename_i oid _
          have hw := TitlesNonEmpty_writeCall fault c
            (serverUpdate c oid ⟨some t.Title, some t.Completed, none⟩) hc
            (fun c2 h => TitlesNonEmpty_serverUpdate c oid _ ⟨t.Title, rfl, ht⟩ c2 hc h)
          split
          · rename_i err c2 heq
            have : (Collection.Update fault c oid ⟨some t.Title, some t.Completed, none⟩).2
                = c2 := by rw [heq]
            rw [← this]; exact hw
          · rename_i c2 heq
            have : (Collection.Update fault c oid ⟨some t.Title, some t.Completed, none⟩).2
                = c2 := by rw [heq]
            rw [← this]; exact hw

theorem TitlesNonEmpty_fetchTodos (fault : Option String) (c : Collection)
    (hc : TitlesNonEmpty c) : TitlesNonEmpty (fetchTodos fault c).db := by
  unfold fetchTodos
  split <;> exact hc

/-! ## Claims -/

/-- C3: for every collection and every request body that parses to a wire item whose
title is empty, whatever its other fields, `createTodo` responds 400 with the message
"the title is required", issues no storage call, and leaves the collection as it was. -/
theorem createTodo_empty_title (env : CreateEnv) (c : Collection) (t : todo) (h : t.Title = "") :
    createTodo env c (.ok t)
      = { resp := .json 400 (.M [("message", .str "the title is required")]),
          db := c, calls := [] } := by
  simp [createTodo, h, StatusBadRequest]

theorem createTodo_empty_title_witness :
    createTodo exampleEnv [exampleDoc] (.ok { ID := "7", Title := "", Completed := true, CreatedAt := 5 })
      = { resp := .json 400 (.M [("message", .str "the title is required")]),
          db := [exampleDoc], calls := [] } :=
  createTodo_empty_title exampleEnv [exampleDoc] _ rfl

/-- C2, as the code has it: a path id is trimmed of white space before the check, so
it is the trimmed path id that decides. For every path id whose trimmed form is not a
valid identifier, and every collection, body and storage behaviour, `updateTodo` and
`deleteTodo` both respond 400, issue no storage call and leave the collection as it
was. -/
theorem invalid_id_400_no_storage_call (fu fd : Option Fault) (c : Collection) (idParam : String)
    (body : Except String todo) (h : IsObjectIdHex (TrimSpace idParam) = false) :
    updateTodo fu c idParam body
        = { resp := .json 400 (.M [("message", .str "The id is invalid")]), db := c, calls := [] }
    ∧ deleteTodo fd c idParam
        = { resp := .json 400 (.M [("message", .str "the id is invalid")]), db := c, calls := [] } :=
  ⟨updateTodo_invalid fu c idParam body h, deleteTodo_invalid fd c idParam h⟩

theorem invalid_id_400_no_storage_call_witness :
    IsObjectIdHex (TrimSpace "6553f1000102031170000001ff") = false
    ∧ updateTodo none [exampleDoc] "6553f1000102031170000001ff" (.ok exampleBody)
        = { resp := .json 400 (.M [("message", .str "The id is invalid")]),
            db := [exampleDoc], calls := [] }
    ∧ deleteTodo none [exampleDoc] "6553f1000102031170000001ff"
        = { resp := .json 400 (.M [("message", .str "the id is invalid")]),
            db := [exampleDoc], calls := [] } :=
  ⟨by decide, invalid_id_400_no_storage_call none none [exampleDoc] "6553f1000102031170000001ff"
    (.ok exampleBody) (by decide)⟩

/-- C2 as stated fails: the path id made of a space and the 24 hexadecimal characters
of a stored identifier (what `chi.URLParam` gives for the path segment
`%206553f1000102031170000001`) is not a valid identifier, it has 25 characters, yet
`deleteTodo` answers 200, issues the remove call and empties the collection, and
`updateTodo` answers 200 and issues the update call. -/
theorem padded_id_reaches_storage :
    IsObjectIdHex " 6553f1000102031170000001" = false
    ∧ (deleteTodo none [exampleDoc] " 6553f1000102031170000001").resp.status = some 200
    ∧ (deleteTodo none [exampleDoc] " 6553f1000102031170000001").calls = [.removeId exampleId]
    ∧ (deleteTodo none [exampleDoc] " 6553f1000102031170000001").db = []
    ∧ (updateTodo none [exampleDoc] " 6553f1000102031170000001" (.ok exampleBody)).resp.status
        = some 200
    ∧ (updateTodo none [exampleDoc] " 6553f1000102031170000001" (.ok exampleBody)).calls
        = [.update exampleId { title := some "x", completed := some true, createdAt := none }] := by
  decide

/-- C9, what the code does: when the find-all query fails, `fetchTodos` hands status
102 (`http.StatusProcessing`) to `rnd.JSON` with a body that carries a message and the
error, and no data list. The client is sent 102 as an interim status and the body under
the final status 200; neither is in the range 500 to 599. -/
theorem fetchTodos_failure_status_102 (c : Collection) (e : String) :
    fetchTodos (some e) c
        = { resp := .json 102
              (.M [("message", .str "Failed to fetch todo"), ("error", .err (.failure e))]),
            db := c, calls := [.findAll] }
    ∧ (fetchTodos (some e) c).resp.interim = some 102
    ∧ (fetchTodos (some e) c).resp.status = some 200
    ∧ ¬ (500 ≤ 102 ∧ 102 ≤ 599)
    ∧ ¬ (500 ≤ 200 ∧ 200 ≤ 599)
    ∧ (fetchTodos (some e) c).resp.entry "message" = some (.str "Failed to fetch todo")
    ∧ (fetchTodos (some e) c).resp.entry "data" = none := by
  refine ⟨rfl, rfl, rfl, by decide, by decide, rfl, rfl⟩

/-- C10: in every collection reachable from the empty one by any sequence of
`createTodo`, `updateTodo`, `deleteTodo` and `fetchTodos` requests, with any bodies and
path ids and with storage calls that succeed or fail, every stored document has a
title that is not the empty string, and is listed with that title. -/
theorem reachable_titles_non_empty (c : Collection) (h : Reachable c) :
    TitlesNonEmpty c ∧ ∀ x ∈ listed c, x.Title ≠ "" := by
  have inv : TitlesNonEmpty c := by
    induction h with
    | start => intro d hd; cases hd
    | fetch fault c _ ih => exact TitlesNonEmpty_fetchTodos fault c ih
    | create env body c _ ih => exact TitlesNonEmpty_createTodo env c body ih
    | update fault idParam body c _ ih => exact TitlesNonEmpty_updateTodo fault c idParam body ih
    | delete fault idParam c _ ih => exact TitlesNonEmpty_deleteTodo fault c idParam ih
  refine ⟨inv, ?_⟩
  intro x hx
  simp only [listed, List.map_map, List.mem_map] at hx
  obtain ⟨d, hd, e⟩ := hx
  obtain ⟨t, ht, hne⟩ := inv d hd
  rw [← e]
  simp only [Function.comp, toWire, unmarshal, ht, Option.getD_some]
  exact hne

theorem reachable_titles_non_empty_witness :
    Reachable (updateTodo none (createTodo exampleEnv [] (.ok exampleBody)).db
        "6553f1000102031170000001" (.ok exampleBody)).db
    ∧ TitlesNonEmpty (updateTodo none (createTodo exampleEnv [] (.ok exampleBody)).db
        "6553f1000102031170000001" (.ok exampleBody)).db
    ∧ ∀ x ∈ listed (updateTodo none (createTodo exampleEnv [] (.ok exampleBody)).db
        "6553f1000102031170000001" (.ok exampleBody)).db, x.Title ≠ "" :=
  ⟨Reachable.update _ _ _ _ (Reachable.create _ _ _ Reachable.start),
   reachable_titles_non_empty _ (Reachable.update _ _ _ _ (Reachable.create _ _ _ Reachable.start))⟩

/-- C1, what the code does at a stored item: the update document holds only `title`
and `completed`, so the stored document is replaced by one without `createdAt`. The
item listed with created-at 1700000000000000000 is listed after a successful update
with the new title and completed flag, the same id, and the zero time as its
created-at. -/
theorem updateTodo_loses_created_at :
    listed [exampleDoc]
        = [{ ID := "6553f1000102031170000001", Title := "buy milk", Completed := false,
             CreatedAt := 1700000000000000000 }]
    ∧ updateTodo none [exampleDoc] "6553f1000102031170000001" (.ok exampleBody)
        = { resp := .empty,
            db := [{ _id := exampleId,
                     fields := { title := some "x", completed := some true, createdAt := none } }],
            calls := [.update exampleId
              { title := some "x", completed := some true, createdAt := none }] }
    ∧ listed (updateTodo none [exampleDoc] "6553f1000102031170000001" (.ok exampleBody)).db
        = [{ ID := "6553f1000102031170000001", Title := "x", Completed := true,
             CreatedAt := zeroTime }]
    ∧ zeroTime ≠ 1700000000000000000 := by
  decide

/-- C5: for every well-formed collection that holds an item with identifier `I`,
`deleteTodo` on the hex text of `I` (the remove call meeting no connectivity failure)
responds 200 with a JSON message, and a following `fetchTodos` returns the former
listing without the entries of id `I`: no entry has that id, and every other entry is
there as it was. -/
theorem deleteTodo_then_fetchTodos (c : Collection) (I : ObjectId) (hwf : c.WF)
    (h : c.holds I) :
    (deleteTodo none c I.Hex).resp
        = .json 200 (.M [("message", .str "todo deleted successfully")])
    ∧ (fetchTodos none (deleteTodo none c I.Hex).db).resp
        = .json 200 (.M [("data", .todos ((listed c).filter (fun x => x.ID != I.Hex)))])
    ∧ (∀ x ∈ listed (deleteTodo none c I.Hex).db, x.ID ≠ I.Hex)
    ∧ (∀ x ∈ listed c, x.ID ≠ I.Hex → x ∈ listed (deleteTodo none c I.Hex).db) := by
  obtain ⟨d, hd, hid⟩ := h
  have hlen : I.length = 12 := hid ▸ hwf.1 d hd
  have hv : IsObjectIdHex (TrimSpace I.Hex) = true := by
    rw [TrimSpace_Hex]; exact IsObjectIdHex_Hex I hlen
  have hI : ObjectIdHex (TrimSpace I.Hex) = some I := by
    rw [TrimSpace_Hex]; exact ObjectIdHex_Hex I hlen
  have hdel := deleteTodo_present_id c I.Hex I hv hI hwf.2 ⟨d, hd, hid⟩
  have hl : listed (deleteTodo none c I.Hex).db = (listed c).filter (fun x => x.ID != I.Hex) := by
    rw [hdel]; exact listed_filter c I
  refine ⟨by rw [hdel], ?_, ?_, ?_⟩
  · rw [fetchTodos_ok, hl]
  · intro x hx
    rw [hl] at hx
    simpa using (List.mem_filter.mp hx).2
  · intro x hx hne
    rw [hl]
    exact List.mem_filter.mpr ⟨hx, by simpa using hne⟩

theorem deleteTodo_then_fetchTodos_witness :
    Collection.WF [exampleDoc] ∧ Collection.holds [exampleDoc] exampleId
    ∧ (deleteTodo none [exampleDoc] exampleId.Hex).resp
        = .json 200 (.M [("message", .str "todo deleted successfully")])
    ∧ (fetchTodos none (deleteTodo none [exampleDoc] exampleId.Hex).db).resp
        = .json 200 (.M [("data", .todos ((listed [exampleDoc]).filter
            (fun x => x.ID != exampleId.Hex)))])
    ∧ (∀ x ∈ listed (deleteTodo none [exampleDoc] exampleId.Hex).db, x.ID ≠ exampleId.Hex)
    ∧ (∀ x ∈ listed [exampleDoc], x.ID ≠ exampleId.Hex →
        x ∈ listed (deleteTodo none [exampleDoc] exampleId.Hex).db) :=
  ⟨by unfold Collection.WF; decide, ⟨exampleDoc, List.mem_singleton_self _, rfl⟩,
   deleteTodo_then_fetchTodos [exampleDoc] exampleId (by unfold Collection.WF; decide)
     ⟨exampleDoc, List.mem_singleton_self _, rfl⟩⟩

/-- C6, as the code has it: for every path id that is a valid identifier `I` (after
trimming) and every collection that holds no item with identifier `I`, `deleteTodo`
(the remove call meeting no connectivity failure) issues the remove call, gets
`ErrNotFound` from it and answers with its failure body, the message "Failed to delete
todo" with the error, which is not the body "todo deleted successfully" of a delete of
an existing item. The collection is left as it was. -/
theorem deleteTodo_absent_not_found (c : Collection) (idParam : String) (I : ObjectId)
    (hv : IsObjectIdHex (TrimSpace idParam) = true)
    (hI : ObjectIdHex (TrimSpace idParam) = some I) (h : ¬ c.holds I) :
    (deleteTodo none c idParam).resp.body
        = some (.M [("message", .str "Failed to delete todo"), ("error", .err .notFound)])
    ∧ (deleteTodo none c idParam).resp.body
        ≠ some (.M [("message", .str "todo deleted successfully")])
    ∧ (deleteTodo none c idParam).db = c
    ∧ (deleteTodo none c idParam).calls = [.removeId I] := by
  rw [deleteTodo_absent_id c idParam I hv hI h]
  exact ⟨rfl, by simp [Response.body], rfl, rfl⟩

theorem deleteTodo_absent_not_found_witness :
    IsObjectIdHex (TrimSpace "6553f1000102031170000001") = true
    ∧ ObjectIdHex (TrimSpace "6553f1000102031170000001") = some exampleId
    ∧ ¬ Collection.holds [exampleOther] exampleId
    ∧ (deleteTodo none [exampleOther] "6553f1000102031170000001").resp.body
        = some (.M [("message", .str "Failed to delete todo"), ("error", .err .notFound)])
    ∧ (deleteTodo none [exampleOther] "6553f1000102031170000001").resp.body
        ≠ some (.M [("message", .str "todo deleted successfully")])
    ∧ (deleteTodo none [exampleOther] "6553f1000102031170000001").db = [exampleOther]
    ∧ (deleteTodo none [exampleOther] "6553f1000102031170000001").calls
        = [.removeId exampleId] :=
  ⟨by decide, by decide, not_holds_exampleOther,
   deleteTodo_absent_not_found [exampleOther] "6553f1000102031170000001" exampleId (by decide)
     (by decide) not_holds_exampleOther⟩

/-- C6 as stated fails: a first delete of a stored identifier answers with the body
"todo deleted successfully" and leaves the collection without the item; the same
delete repeated on that collection issues the remove call again and answers with the
body "Failed to delete todo" and the not-found error, which is not the response of the
first. -/
theorem repeated_delete_is_an_error :
    (deleteTodo none [exampleDoc] "6553f1000102031170000001").resp.body
        = some (.M [("message", .str "todo deleted successfully")])
    ∧ (deleteTodo none [exampleDoc] "6553f1000102031170000001").db = []
    ∧ (deleteTodo none (deleteTodo none [exampleDoc] "6553f1000102031170000001").db
          "6553f1000102031170000001").resp.body
        = some (.M [("message", .str "Failed to delete todo"), ("error", .err .notFound)])
    ∧ (deleteTodo none (deleteTodo none [exampleDoc] "6553f1000102031170000001").db
          "6553f1000102031170000001").calls = [.removeId exampleId]
    ∧ (deleteTodo none (deleteTodo none [exampleDoc] "6553f1000102031170000001").db
          "6553f1000102031170000001").resp
        ≠ (deleteTodo none [exampleDoc] "6553f1000102031170000001").resp := by
  decide

/-- C7, as the code has it: for every path id that is a valid identifier `I` (after
trimming), every collection that holds no item with identifier `I` and every body with
a non-empty title, `updateTodo` (the update call meeting no connectivity failure)
issues the update call and gets `ErrNotFound` from it. The final status is 200, as for
a successful update, but the response is told apart from one by its body: a
successful update writes no body, this one carries the message "failed to update todo"
with the error. The collection is left as it was. -/
theorem updateTodo_absent_not_found (c : Collection) (idParam : String) (I : ObjectId)
    (t : todo) (hv : IsObjectIdHex (TrimSpace idParam) = true)
    (hI : ObjectIdHex (TrimSpace idParam) = some I) (ht : t.Title ≠ "") (h : ¬ c.holds I) :
    (updateTodo none c idParam (.ok t)).resp.status = some 200
    ∧ (updateTodo none c idParam (.ok t)).resp.body
        = some (.M [("message", .str "failed to update todo"), ("error", .err .notFound)])
    ∧ (updateTodo none c idParam (.ok t)).resp.entry "message"
        = some (.str "failed to update todo")
    ∧ (updateTodo none c idParam (.ok t)).db = c
    ∧ (updateTodo none c idParam (.ok t)).calls
        = [.update I { title := some t.Title, completed := some t.Completed, createdAt := none }] := by
  rw [updateTodo_absent_id c idParam I t hv hI ht h]
  exact ⟨rfl, rfl, rfl, rfl, rfl⟩

theorem updateTodo_absent_not_found_witness :
    IsObjectIdHex (TrimSpace "6553f1000102031170000001") = true
    ∧ ObjectIdHex (TrimSpace "6553f1000102031170000001") = some exampleId
    ∧ exampleBody.Title ≠ ""
    ∧ ¬ Collection.holds [exampleOther] exampleId
    ∧ (updateTodo none [exampleOther] "6553f1000102031170000001" (.ok exampleBody)).resp.status
        = some 200
    ∧ (updateTodo none [exampleOther] "6553f1000102031170000001" (.ok exampleBody)).resp.body
        = some (.M [("message", .str "failed to update todo"), ("error", .err .notFound)])
    ∧ (updateTodo none [exampleOther] "6553f1000102031170000001" (.ok exampleBody)).resp.entry
          "message" = some (.str "failed to update todo")
    ∧ (updateTodo none [exampleOther] "6553f1000102031170000001" (.ok exampleBody)).db
        = [exampleOther]
    ∧ (updateTodo none [exampleOther] "6553f1000102031170000001" (.ok exampleBody)).calls
        = [.update exampleId
            { title := some exampleBody.Title, completed := some exampleBody.Completed,
              createdAt := none }] :=
  ⟨by decide, by decide, by decide, not_holds_exampleOther,
   updateTodo_absent_not_found [exampleOther] "6553f1000102031170000001" exampleId exampleBody
     (by decide) (by decide) (by decide) not_holds_exampleOther⟩

/-- C7 as stated fails: on a collection that does not hold the identifier,
`updateTodo` with that valid identifier and a body with a title answers with the error
message "failed to update todo" and the not-found error in its body, where the claim
says no error message; a successful update on a collection that holds the identifier
writes no body, so the two are told apart. -/
theorem update_of_absent_is_an_error :
    (updateTodo none [exampleOther] "6553f1000102031170000001" (.ok exampleBody)).resp.body
        = some (.M [("message", .str "failed to update todo"), ("error", .err .notFound)])
    ∧ (updateTodo none [exampleOther] "6553f1000102031170000001" (.ok exampleBody)).resp.entry
          "message" = some (.str "failed to update todo")
    ∧ (updateTodo none [exampleOther] "6553f1000102031170000001" (.ok exampleBody)).db
        = [exampleOther]
    ∧ (updateTodo none [exampleDoc] "6553f1000102031170000001" (.ok exampleBody)).resp.body
        = none
    ∧ (updateTodo none [exampleOther] "6553f1000102031170000001" (.ok exampleBody)).resp
        ≠ (updateTodo none [exampleDoc] "6553f1000102031170000001" (.ok exampleBody)).resp := by
  decide

/-- C4, as the code has it: for every collection, every body with a non-empty title
(whatever its id, completed and created_at), a `createTodo` whose insert succeeds
responds 201 with a todo_id, and a following `fetchTodos` returns the former listing
plus exactly one new item, whose id is the returned todo_id and was not listed before,
with title `t` and completed false. Its created-at is the clock reading of the handler
cut down to whole milliseconds, the precision of a stored datetime: with a create call
at `tcall`, not after that reading, it is later than `tcall` minus one millisecond and
not later than the reading. -/
theorem createTodo_then_fetchTodos (env : CreateEnv) (c : Collection) (t : todo) (tcall : Time)
    (ht : t.Title ≠ "")
    (hins : (c.Insert env.fault ⟨NewObjectId env.ids, t.Title, false, env.now⟩).1 = none)
    (hclock : tcall ≤ env.now) :
    (createTodo env c (.ok t)).resp
        = .json 201 (.M [("message", .str "todo create successfully"),
                         ("todo_id", .str (NewObjectId env.ids).Hex)])
    ∧ (fetchTodos none (createTodo env c (.ok t)).db).resp
        = .json 200 (.M [("data", .todos (listed c ++
            [{ ID := (NewObjectId env.ids).Hex, Title := t.Title, Completed := false,
               CreatedAt := env.now / 1000000 * 1000000 }]))])
    ∧ (∀ x ∈ listed c, x.ID ≠ (NewObjectId env.ids).Hex)
    ∧ tcall - 1000000 < env.now / 1000000 * 1000000
    ∧ env.now / 1000000 * 1000000 ≤ env.now := by
  obtain ⟨hf, hfresh⟩ := Insert_ok env.fault c _ hins
  have hc := createTodo_inserted env c t ht hf hfresh
  have hms : ∀ n m : Int, m ≤ n →
      m - 1000000 < n / 1000000 * 1000000 ∧ n / 1000000 * 1000000 ≤ n := by
    intro n m h
    omega
  refine ⟨by rw [hc], ?_, listed_absent c _ hfresh, (hms env.now tcall hclock).1,
    (hms env.now tcall hclock).2⟩
  rw [fetchTodos_ok, hc, listed_append]
  rfl

theorem createTodo_then_fetchTodos_witness :
    exampleBody.Title ≠ ""
    ∧ (Collection.Insert exampleEnv.fault []
        ⟨NewObjectId exampleEnv.ids, exampleBody.Title, false, exampleEnv.now⟩).1 = none
    ∧ exampleCall ≤ exampleEnv.now
    ∧ (createTodo exampleEnv [] (.ok exampleBody)).resp
        = .json 201 (.M [("message", .str "todo create successfully"),
                         ("todo_id", .str (NewObjectId exampleEnv.ids).Hex)])
    ∧ (fetchTodos none (createTodo exampleEnv [] (.ok exampleBody)).db).resp
        = .json 200 (.M [("data", .todos (listed [] ++
            [{ ID := (NewObjectId exampleEnv.ids).Hex, Title := exampleBody.Title,
               Completed := false, CreatedAt := exampleEnv.now / 1000000 * 1000000 }]))])
    ∧ (∀ x ∈ listed [], x.ID ≠ (NewObjectId exampleEnv.ids).Hex)
    ∧ exampleCall - 1000000 < exampleEnv.now / 1000000 * 1000000
    ∧ exampleEnv.now / 1000000 * 1000000 ≤ exampleEnv.now :=
  ⟨by decide, by decide, by decide,
   createTodo_then_fetchTodos exampleEnv [] exampleBody exampleCall (by decide) (by decide)
     (by decide)⟩

/-- C4 as stated fails: a create call arrives 0.5 ms after a full second and the
handler reads the clock 0.2 ms later; the insert succeeds and the response is 201, and
the item is then listed with the full second as its created-at, which is earlier than
the time of the create call. -/
theorem created_at_earlier_than_call :
    exampleCall ≤ exampleEnv.now
    ∧ (createTodo exampleEnv [] (.ok exampleBody)).resp
        = .json 201 (.M [("message", .str "todo create successfully"),
                         ("todo_id", .str "6553f1000102031170000001")])
    ∧ (fetchTodos none (createTodo exampleEnv [] (.ok exampleBody)).db).resp
        = .json 200 (.M [("data", .todos
            [{ ID := "6553f1000102031170000001", Title := "x", Completed := false,
               CreatedAt := 1700000000000000000 }])])
    ∧ (1700000000000000000 : Time) < exampleCall := by
  decide

/-- C8: for every well-formed collection and every non-empty title `t`, with the
storage calls meeting no connectivity failure and the generated identifier not yet in
the collection: create with title `t` gives 201 with a todo_id `i` that passes the
identifier syntax check; update of `i` with title `t` and completed true gives 200;
delete of `i` gives 200 with its message. No entry listed before has id `i`;
`fetchTodos` after the create returns the former listing and one entry with id `i`,
title `t` and completed false; after the update it returns the former listing and that
entry with completed true; after the delete it returns the former listing, so no entry
with id `i`. -/
theorem create_update_delete_scenario (env : CreateEnv) (c : Collection) (t : String)
    (bc bu : todo) (hwf : c.WF) (ht : t ≠ "") (hbc : bc.Title = t) (hbu : bu.Title = t)
    (hcu : bu.Completed = true) (hf : env.fault = none)
    (hfresh : ¬ c.holds (NewObjectId env.ids)) :
    (createTodo env c (.ok bc)).resp
        = .json 201 (.M [("message", .str "todo create successfully"),
                         ("todo_id", .str (NewObjectId env.ids).Hex)])
    ∧ (createTodo env c (.ok bc)).resp.status = some 201
    ∧ IsObjectIdHex (NewObjectId env.ids).Hex = true
    ∧ (fetchTodos none c).resp = .json 200 (.M [("data", .todos (listed c))])
    ∧ (∀ x ∈ listed c, x.ID ≠ (NewObjectId env.ids).Hex)
    ∧ (fetchTodos none (createTodo env c (.ok bc)).db).resp
        = .json 200 (.M [("data", .todos (listed c ++
            [{ ID := (NewObjectId env.ids).Hex, Title := t, Completed := false,
               CreatedAt := env.now / 1000000 * 1000000 }]))])
    ∧ (updateTodo none (createTodo env c (.ok bc)).db (NewObjectId env.ids).Hex (.ok bu)).resp.status
        = some 200
    ∧ (fetchTodos none (updateTodo none (createTodo env c (.ok bc)).db (NewObjectId env.ids).Hex
          (.ok bu)).db).resp
        = .json 200 (.M [("data", .todos (listed c ++
            [{ ID := (NewObjectId env.ids).Hex, Title := t, Completed := true,
               CreatedAt := zeroTime }]))])
    ∧ (deleteTodo none (updateTodo none (createTodo env c (.ok bc)).db (NewObjectId env.ids).Hex
          (.ok bu)).db (NewObjectId env.ids).Hex).resp
        = .json 200 (.M [("message", .str "todo deleted successfully")])
    ∧ (deleteTodo none (updateTodo none (createTodo env c (.ok bc)).db (NewObjectId env.ids).Hex
          (.ok bu)).db (NewObjectId env.ids).Hex).resp.status = some 200
    ∧ (fetchTodos none (deleteTodo none (updateTodo none (createTodo env c (.ok bc)).db
          (NewObjectId env.ids).Hex (.ok bu)).db (NewObjectId env.ids).Hex).db).resp
        = .json 200 (.M [("data", .todos (listed c))]) := by
  subst hbc
  have hlen := NewObjectId_length env.ids
  generalize hI : NewObjectId env.ids = I at *
  have hv : IsObjectIdHex (TrimSpace I.Hex) = true := by
    rw [TrimSpace_Hex]; exact IsObjectIdHex_Hex I hlen
  have hp : ObjectIdHex (TrimSpace I.Hex) = some I := by
    rw [TrimSpace_Hex]; exact ObjectIdHex_Hex I hlen
  have hbu2 : bu.Title ≠ "" := by rw [hbu]; exact ht
  -- the three steps
  have h1 := createTodo_inserted env c bc ht hf (by rw [hI]; exact hfresh)
  rw [hI] at h1
  generalize hd : marshal ⟨I, bc.Title, false, env.now⟩ = d at h1
  have hdid : d._id = I := by rw [← hd]; rfl
  have hwf1 : Collection.WF (c ++ [d]) :=
    WF_append c d hwf (hdid ▸ hlen) (by rw [hdid]; exact hfresh)
  have hh1 : Collection.holds (c ++ [d]) I := hdid ▸ holds_append_self c d
  have h2 := updateTodo_present_id (c ++ [d]) I.Hex I bu hv hp hbu2 hwf1.2 hh1
  have hwf2 := WF_map (c ++ [d]) I ⟨some bu.Title, some bu.Completed, none⟩ hwf1
  have hh2 := holds_map (c ++ [d]) I I ⟨some bu.Title, some bu.Completed, none⟩ hh1
  have h3 := deleteTodo_present_id _ I.Hex I hv hp hwf2.2 hh2
  -- the listings
  have habs : ∀ x ∈ listed c, x.ID ≠ I.Hex := listed_absent c I hfresh
  have hw : toWire (unmarshal d)
      = { ID := I.Hex, Title := bc.Title, Completed := false,
          CreatedAt := env.now / 1000000 * 1000000 } := by
    rw [← hd]; rfl
  have hmap : (listed c).map (fun x => if x.ID = I.Hex then
      ({ ID := I.Hex, Title := bu.Title, Completed := bu.Completed, CreatedAt := zeroTime } : todo)
      else x) = listed c := by
    conv => rhs; rw [← List.map_id (listed c)]
    apply List.map_congr_left
    intro x hx
    simp only [habs x hx, if_false, id]
  have hkeep : (listed c).filter (fun x => x.ID != I.Hex) = listed c := by
    apply List.filter_eq_self.mpr
    intro x hx
    simpa using habs x hx
  have hl2 : listed ((c ++ [d]).map (fun e => if e._id = I then
      ({ _id := e._id,
         fields := { title := some bu.Title, completed := some bu.Completed,
                     createdAt := none } } : Doc)
      else e))
      = listed c ++ [{ ID := I.Hex, Title := bc.Title, Completed := true,
                       CreatedAt := zeroTime }] := by
    rw [listed_map, listed_append, List.map_append, hmap, hw]
    simp [hbu, hcu]
  rw [h1]
  simp only
  rw [h2]
  simp only
  rw [h3]
  simp only
  refine ⟨trivial, rfl, IsObjectIdHex_Hex I hlen, rfl, habs, ?_, rfl, ?_, trivial, rfl, ?_⟩
  · rw [fetchTodos_ok, listed_append, hw]
  · rw [fetchTodos_ok, hl2]
  · rw [fetchTodos_ok, listed_filter, hl2, List.filter_append, hkeep]
    simp

theorem create_update_delete_scenario_witness :
    Collection.WF [exampleOther] ∧ "buy milk" ≠ ""
    ∧ ¬ Collection.holds [exampleOther] (NewObjectId exampleEnv.ids)
    ∧ (createTodo exampleEnv [exampleOther] (.ok ⟨"", "buy milk", false, zeroTime⟩)).resp
        = .json 201 (.M [("message", .str "todo create successfully"),
                         ("todo_id", .str (NewObjectId exampleEnv.ids).Hex)])
    ∧ (createTodo exampleEnv [exampleOther] (.ok ⟨"", "buy milk", false, zeroTime⟩)).resp.status
        = some 201
    ∧ IsObjectIdHex (NewObjectId exampleEnv.ids).Hex = true
    ∧ (fetchTodos none [exampleOther]).resp
        = .json 200 (.M [("data", .todos (listed [exampleOther]))])
    ∧ (∀ x ∈ listed [exampleOther], x.ID ≠ (NewObjectId exampleEnv.ids).Hex)
    ∧ (fetchTodos none
          (createTodo exampleEnv [exampleOther] (.ok ⟨"", "buy milk", false, zeroTime⟩)).db).resp
        = .json 200 (.M [("data", .todos (listed [exampleOther] ++
            [{ ID := (NewObjectId exampleEnv.ids).Hex, Title := "buy milk", Completed := false,
               CreatedAt := exampleEnv.now / 1000000 * 1000000 }]))])
    ∧ (updateTodo none
          (createTodo exampleEnv [exampleOther] (.ok ⟨"", "buy milk", false, zeroTime⟩)).db
          (NewObjectId exampleEnv.ids).Hex (.ok ⟨"", "buy milk", true, zeroTime⟩)).resp.status
        = some 200
    ∧ (fetchTodos none (updateTodo none
          (createTodo exampleEnv [exampleOther] (.ok ⟨"", "buy milk", false, zeroTime⟩)).db
          (NewObjectId exampleEnv.ids).Hex (.ok ⟨"", "buy milk", true, zeroTime⟩)).db).resp
        = .json 200 (.M [("data", .todos (listed [exampleOther] ++
            [{ ID := (NewObjectId exampleEnv.ids).Hex, Title := "buy milk", Completed := true,
               CreatedAt := zeroTime }]))])
    ∧ (deleteTodo none (updateTodo none
          (createTodo exampleEnv [exampleOther] (.ok ⟨"", "buy milk", false, zeroTime⟩)).db
          (NewObjectId exampleEnv.ids).Hex (.ok ⟨"", "buy milk", true, zeroTime⟩)).db
          (NewObjectId exampleEnv.ids).Hex).resp
        = .json 200 (.M [("message", .str "todo deleted successfully")])
    ∧ (deleteTodo none (updateTodo none
          (createTodo exampleEnv [exampleOther] (.ok ⟨"", "buy milk", false, zeroTime⟩)).db
          (NewObjectId exampleEnv.ids).Hex (.ok ⟨"", "buy milk", true, zeroTime⟩)).db
          (NewObjectId exampleEnv.ids).Hex).resp.status = some 200
    ∧ (fetchTodos none (deleteTodo none (updateTodo none
          (createTodo exampleEnv [exampleOther] (.ok ⟨"", "buy milk", false, zeroTime⟩)).db
          (NewObjectId exampleEnv.ids).Hex (.ok ⟨"", "buy milk", true, zeroTime⟩)).db
          (NewObjectId exampleEnv.ids).Hex).db).resp
        = .json 200 (.M [("data", .todos (listed [exampleOther]))]) :=
  ⟨by unfold Collection.WF; decide, by decide, not_holds_exampleOther,
   create_update_delete_scenario exampleEnv [exampleOther] "buy milk"
     ⟨"", "buy milk", false, zeroTime⟩ ⟨"", "buy milk", true, zeroTime⟩
     (by unfold Collection.WF; decide) (by decide) rfl rfl rfl rfl not_holds_exampleOther⟩

end TodoList
